import Mathlib

/-!
Verification of the time_cli utility (src/main.rs).

The development shallowly embeds the program's core logic:
calendar arithmetic (as used via chrono's proleptic-Gregorian
NaiveDate), the time-statistics calculator, the language-code and
date validators, date resolution, the history fetch-and-cache layer,
JSON decoding of the On-This-Day response, and the table renderer.
Floating-point percentages are modelled as exact rationals; the two
divisions performed by the program are exact at the boundary points
the claims mention, so the rational model agrees with IEEE doubles
there.
-/

namespace TimeCli

/- ------------------------------------------------------------------
   Calendar model (proleptic Gregorian, as implemented by chrono's
   NaiveDate::from_ymd_opt and Datelike::ordinal)
   ------------------------------------------------------------------ -/

/-- Leap-year rule of the proleptic Gregorian calendar, as used by
chrono to decide whether February has 29 days. -/
def isLeapYear (y : Int) : Bool :=
  y % 4 == 0 && (y % 100 != 0 || y % 400 == 0)

/-- Number of days in a month (0 for an out-of-range month number). -/
def daysInMonth (y : Int) (m : Nat) : Nat :=
  match m with
  | 1 => 31
  | 2 => if isLeapYear y then 29 else 28
  | 3 => 31
  | 4 => 30
  | 5 => 31
  | 6 => 30
  | 7 => 31
  | 8 => 31
  | 9 => 30
  | 10 => 31
  | 11 => 30
  | 12 => 31
  | _ => 0

/-- Model of `NaiveDate::from_ymd_opt`: `some` exactly when the
(year, month, day) triple denotes a real proleptic-Gregorian date. -/
def from_ymd_opt (y : Int) (m d : Nat) : Option (Int × Nat × Nat) :=
  if 1 ≤ m ∧ m ≤ 12 ∧ 1 ≤ d ∧ d ≤ daysInMonth y m then some (y, m, d)
  else none

/-- Days of the year strictly before the first of month `m`
(chrono's ordinal lookup table). -/
def daysBeforeMonth (y : Int) (m : Nat) : Nat :=
  match m with
  | 1 => 0
  | 2 => 31
  | 3 => if isLeapYear y then 60 else 59
  | 4 => if isLeapYear y then 91 else 90
  | 5 => if isLeapYear y then 121 else 120
  | 6 => if isLeapYear y then 152 else 151
  | 7 => if isLeapYear y then 182 else 181
  | 8 => if isLeapYear y then 213 else 212
  | 9 => if isLeapYear y then 244 else 243
  | 10 => if isLeapYear y then 274 else 273
  | 11 => if isLeapYear y then 305 else 304
  | 12 => if isLeapYear y then 335 else 334
  | _ => 0

/-- Model of `Datelike::ordinal`: the one-based day-of-year of a date. -/
def dayOfYear (y : Int) (m d : Nat) : Nat :=
  daysBeforeMonth y m + d

/- ------------------------------------------------------------------
   Time statistics (compute_time_statistics in src/main.rs)
   ------------------------------------------------------------------ -/

/-- A local instant as the program observes it through chrono:
calendar date, wall-clock time, plus the two chrono-provided
attributes the statistics merely copy (ISO week, Unix timestamp). -/
structure LocalDateTime where
  year : Int
  month : Nat
  day : Nat
  hour : Nat
  minute : Nat
  second : Nat
  isoWeek : Nat
  timestamp : Int

/-- A `LocalDateTime` that chrono could actually hand out: valid
calendar date and in-range wall-clock fields. -/
def LocalDateTime.Valid (t : LocalDateTime) : Prop :=
  1 ≤ t.month ∧ t.month ≤ 12 ∧ 1 ≤ t.day ∧ t.day ≤ daysInMonth t.year t.month ∧
    t.hour ≤ 23 ∧ t.minute ≤ 59 ∧ t.second ≤ 59

/-- The `TimeStats` record of src/main.rs; the two progress
percentages are modelled as exact rationals. -/
structure TimeStats where
  day_of_year : Nat
  total_days_in_year : Nat
  day_progress : ℚ
  year_progress : ℚ
  week_of_year : Nat
  is_leap : Bool
  unix_timestamp : Int

/-- Embedding of `compute_time_statistics`. -/
def compute_time_statistics (now : LocalDateTime) : TimeStats :=
  let year := now.year
  let is_leap := (from_ymd_opt year 2 29).isSome
  let seconds_into_day := now.hour * 3600 + now.minute * 60 + now.second
  let seconds_in_day := 86400
  let day_progress : ℚ :=
    ((seconds_into_day : ℚ) / (seconds_in_day : ℚ)) * 100
  let day_of_year := dayOfYear year now.month now.day
  let total_days_in_year : Nat := if is_leap then 366 else 365
  let year_progress : ℚ :=
    ((day_of_year : ℚ) / (total_days_in_year : ℚ)) * 100
  { day_of_year := day_of_year
    total_days_in_year := total_days_in_year
    day_progress := day_progress
    year_progress := year_progress
    week_of_year := now.isoWeek
    is_leap := is_leap
    unix_timestamp := now.timestamp }

/- ------------------------------------------------------------------
   Date resolution and validation (show_on_this_day, lines 222-229)
   ------------------------------------------------------------------ -/

/-- `{n:02}` formatting of a Nat: at least two digits, zero-padded. -/
def pad2 (n : Nat) : String :=
  if n < 10 then "0" ++ toString n else toString n

/-- Month/day resolution of show_on_this_day:
`args.month.unwrap_or(today.month())` and likewise for the day. -/
def resolveDate (argMonth argDay : Option Nat) (todayMonth todayDay : Nat) :
    Nat × Nat :=
  (argMonth.getD todayMonth, argDay.getD todayDay)

/-- Date validation of show_on_this_day: the resolved pair is checked
against the fixed leap reference year 2024, and rejection carries the
two-digit-formatted month and day. -/
def validateDate (month day : Nat) : Except String Unit :=
  if (from_ymd_opt 2024 month day).isNone then
    Except.error
      ("'" ++ pad2 month ++ "-" ++ pad2 day ++ "' is not a valid calendar date")
  else
    Except.ok ()

/- ------------------------------------------------------------------
   Terminal width clamping (show_on_this_day, lines 272, 284, 313)
   ------------------------------------------------------------------ -/

/-- `termwidth().max(50)`. -/
def clampedWidth (termW : Nat) : Nat := max termW 50

/-- Wrap width for holiday cells: `width - 5` (usize subtraction). -/
def holidayWrapWidth (termW : Nat) : Nat := clampedWidth termW - 5

/-- Wrap width for event cells: `width - 15` (usize subtraction). -/
def eventWrapWidth (termW : Nat) : Nat := clampedWidth termW - 15

/- ------------------------------------------------------------------
   Language-code validator (parse_lang_code in src/main.rs)
   ------------------------------------------------------------------ -/

/-- Rust's `char::is_ascii_alphabetic`. -/
def isAsciiAlphabetic (c : Char) : Bool :=
  (65 ≤ c.toNat && c.toNat ≤ 90) || (97 ≤ c.toNat && c.toNat ≤ 122)

/-- Rust's `char::to_ascii_lowercase`: shifts ASCII uppercase by 32,
leaves everything else alone. -/
def toAsciiLower (c : Char) : Char :=
  if 65 ≤ c.toNat ∧ c.toNat ≤ 90 then Char.ofNat (c.toNat + 32) else c

/-- Rust's `str::to_ascii_lowercase` applied characterwise. -/
def strToAsciiLower (s : String) : String :=
  ⟨s.data.map toAsciiLower⟩

/-- Rust's `str::len`: the UTF-8 byte length of the string. -/
def utf8Len (s : String) : Nat :=
  (s.data.map Char.utf8Size).sum

/-- Embedding of `parse_lang_code`: byte length must be 2 and every
char ASCII alphabetic; the success value is the ASCII-lowercased
string, the failure message quotes the offending input. -/
def parse_lang_code (s : String) : Except String String :=
  if utf8Len s = 2 ∧ s.data.all isAsciiAlphabetic then
    Except.ok (strToAsciiLower s)
  else
    Except.error
      ("'" ++ s ++ "' is not a valid ISO-639-1 language code (two ASCII letters)")

/- ------------------------------------------------------------------
   Data model of the On-This-Day response (src/main.rs lines 121-142)
   ------------------------------------------------------------------ -/

structure Event where
  year : Int
  text : String
deriving DecidableEq

structure Holiday where
  text : String
deriving DecidableEq

structure OnThisDayResponse where
  events : List Event
  births : List Event
  deaths : List Event
  holidays : List Holiday
deriving DecidableEq

inductive EventType where
  | events
  | births
  | deaths
  | holidays
deriving DecidableEq

/-- clap's `to_possible_value().get_name()` under
`rename_all = "lower"`: the lowercased variant name. -/
def eventTypeName : EventType → String
  | EventType.events => "events"
  | EventType.births => "births"
  | EventType.deaths => "deaths"
  | EventType.holidays => "holidays"

/- ------------------------------------------------------------------
   Renderer (show_on_this_day, lines 266-318)
   ------------------------------------------------------------------ -/

/-- The category-to-sequence selection of the event-table branch. -/
def selectedEvents (t : EventType) (r : OnThisDayResponse) : List Event :=
  match t with
  | EventType.events => r.events
  | EventType.births => r.births
  | EventType.deaths => r.deaths
  | EventType.holidays => []

/-- The category-to-header mapping of the event-table branch. -/
def headersFor : EventType → String × String
  | EventType.events => ("Year", "Event")
  | EventType.births => ("Born", "Person")
  | EventType.deaths => ("Died", "Person")
  | EventType.holidays => ("", "")

/-- Rows of the two-column table for Events/Births/Deaths: the
placeholder row when the sequence is empty, otherwise one row per
entry following `events.iter().rev()`. `wrap` stands for the external
`textwrap::fill` collaborator applied at the detected width. -/
def renderEventRows (wrap : String → String) (events : List Event) :
    List (String × String) :=
  if events.isEmpty then
    [("N/A", "No entries of this type found for this day.")]
  else
    events.reverse.map (fun ev => (toString ev.year, wrap ev.text))

/-- Rows of the single-column holidays table. -/
def renderHolidayRows (wrap : String → String) (hs : List Holiday) :
    List String :=
  if hs.isEmpty then
    ["No holidays found for this day."]
  else
    hs.map (fun h => wrap h.text)

/-- The whole table body produced by show_on_this_day for a decoded
response, as a list of rows of cells. -/
def renderTable (wrap : String → String) (t : EventType)
    (r : OnThisDayResponse) : List (List String) :=
  match t with
  | EventType.holidays =>
      (renderHolidayRows wrap r.holidays).map (fun s => [s])
  | _ =>
      (renderEventRows wrap (selectedEvents t r)).map (fun p => [p.1, p.2])

/- ------------------------------------------------------------------
   JSON decoding (serde Deserialize for OnThisDayResponse;
   the four sequence fields carry serde(default))
   ------------------------------------------------------------------ -/

inductive Json where
  | null
  | bool (b : Bool)
  | num (n : Int)
  | str (s : String)
  | arr (elems : List Json)
  | obj (fields : List (String × Json))

/-- First binding of a key in a JSON object, serde-style. -/
def jsonLookup (fields : List (String × Json)) (key : String) :
    Option Json :=
  match fields with
  | [] => none
  | (k, v) :: rest => if k = key then some v else jsonLookup rest key

def decodeEvent (j : Json) : Except String Event :=
  match j with
  | Json.obj fields =>
      match jsonLookup fields "year", jsonLookup fields "text" with
      | some (Json.num y), some (Json.str t) => Except.ok { year := y, text := t }
      | _, _ => Except.error "invalid event object"
  | _ => Except.error "expected object"

def decodeHoliday (j : Json) : Except String Holiday :=
  match j with
  | Json.obj fields =>
      match jsonLookup fields "text" with
      | some (Json.str t) => Except.ok { text := t }
      | _ => Except.error "invalid holiday object"
  | _ => Except.error "expected object"

def decodeList {α : Type} (dec : Json → Except String α) (j : Json) :
    Except String (List α) :=
  match j with
  | Json.arr elems =>
      elems.foldr
        (fun e acc =>
          match dec e, acc with
          | Except.ok x, Except.ok xs => Except.ok (x :: xs)
          | Except.error msg, _ => Except.error msg
          | _, Except.error msg => Except.error msg)
        (Except.ok [])
  | _ => Except.error "expected array"

/-- Decode one category field: `serde(default)` makes an absent field
the empty vector, while a present field must decode as an array. -/
def decodeField {α : Type} (dec : Json → Except String α)
    (fields : List (String × Json)) (key : String) :
    Except String (List α) :=
  match jsonLookup fields key with
  | none => Except.ok []
  | some v => decodeList dec v

/-- serde decoding of `OnThisDayResponse`. -/
def decodeResponse (j : Json) : Except String OnThisDayResponse :=
  match j with
  | Json.obj fields =>
      match decodeField decodeEvent fields "events",
            decodeField decodeEvent fields "births",
            decodeField decodeEvent fields "deaths",
            decodeField decodeHoliday fields "holidays" with
      | Except.ok evs, Except.ok bs, Except.ok ds, Except.ok hs =>
          Except.ok { events := evs, births := bs, deaths := ds, holidays := hs }
      | Except.error msg, _, _, _ => Except.error msg
      | _, Except.error msg, _, _ => Except.error msg
      | _, _, Except.error msg, _ => Except.error msg
      | _, _, _, Except.error msg => Except.error msg
  | _ => Except.error "expected object"

/- ------------------------------------------------------------------
   Fetch and cache (fetch_wikipedia_data, src/main.rs lines 191-218)
   ------------------------------------------------------------------ -/

/-- Outcome of one fetch: a decoded response, or an error message. -/
def FetchOutcome : Type := Except String OnThisDayResponse

/-- Cache key: the argument tuple (language, category name, month, day). -/
def CacheKey : Type := String × String × Nat × Nat

instance : DecidableEq CacheKey := by
  unfold CacheKey
  infer_instance

/-- Cache state: at most one entry per key, each holding the insert
time (seconds) and the stored outcome. -/
def CacheState : Type := List (CacheKey × (Nat × FetchOutcome))

def emptyCache : CacheState := []

def cacheTTL : Nat := 86400

def lookupCache (st : CacheState) (k : CacheKey) :
    Option (Nat × FetchOutcome) :=
  match st with
  | [] => none
  | (k', e) :: rest => if k' = k then some e else lookupCache rest k

def removeCache (st : CacheState) (k : CacheKey) : CacheState :=
  match st with
  | [] => []
  | (k', e) :: rest =>
      if k' = k then removeCache rest k else (k', e) :: removeCache rest k

def insertCache (st : CacheState) (k : CacheKey) (t : Nat)
    (r : FetchOutcome) : CacheState :=
  (k, (t, r)) :: removeCache st k

/-- Modelled from the spec: the memoisation layer that the `cached`
attribute on `fetch_wikipedia_data` generates is not part of src/,
so its behaviour is taken from the spec — keyed by the exact argument
tuple, a non-expired (TTL 24 hours = 86400 s) entry is returned with
no network access, both Ok and Err outcomes are stored, last fetch
wins, expiry is checked on read. `net` is the outcome the network
would produce on this call; the final component counts network calls
made by this invocation (0 or 1). -/
def fetch_wikipedia_data (st : CacheState) (now : Nat) (k : CacheKey)
    (net : FetchOutcome) : FetchOutcome × CacheState × Nat :=
  match lookupCache st k with
  | some (tIns, r) =>
      if now < tIns + cacheTTL then (r, st, 0)
      else (net, insertCache st k now net, 1)
  | none => (net, insertCache st k now net, 1)

/- ------------------------------------------------------------------
   History pipeline (show_on_this_day, src/main.rs lines 220-331)
   ------------------------------------------------------------------ -/

/-- The history pipeline from argument parsing to the rendered table:
clap runs `parse_lang_code` on the raw language argument before
`show_on_this_day` resolves the date, validates it against the fixed
leap reference year, and only then reaches the fetch step. The final
component counts network calls. -/
def show_on_this_day (st : CacheState) (rawLang : String) (t : EventType)
    (argMonth argDay : Option Nat) (todayMonth todayDay : Nat)
    (now : Nat) (net : FetchOutcome) (wrap : String → String) :
    Except String (List (List String)) × CacheState × Nat :=
  match parse_lang_code rawLang with
  | Except.error e => (Except.error e, st, 0)
  | Except.ok lang =>
      let month := (resolveDate argMonth argDay todayMonth todayDay).1
      let day := (resolveDate argMonth argDay todayMonth todayDay).2
      match validateDate month day with
      | Except.error e => (Except.error e, st, 0)
      | Except.ok _ =>
          let fetched :=
            fetch_wikipedia_data st now (lang, eventTypeName t, month, day) net
          match fetched.1 with
          | Except.error e => (Except.error e, fetched.2.1, fetched.2.2)
          | Except.ok resp =>
              (Except.ok (renderTable wrap t resp), fetched.2.1, fetched.2.2)

/- ==================================================================
   Helper lemmas
   ================================================================== -/

/-- The ordinal lookup table is consistent with the month lengths. -/
lemma daysBeforeMonth_add_daysInMonth (y : Int) (m : Nat)
    (h1 : 1 ≤ m) (h2 : m ≤ 11) :
    daysBeforeMonth y m + daysInMonth y m = daysBeforeMonth y (m + 1) := by
  interval_cases m <;>
    cases hL : isLeapYear y <;>
      simp [daysBeforeMonth, daysInMonth, hL]

lemma isLeapYear_iff (y : Int) :
    isLeapYear y = true ↔ ((y % 4 = 0 ∧ y % 100 ≠ 0) ∨ y % 400 = 0) := by
  constructor
  · intro h
    simp only [isLeapYear, Bool.and_eq_true, Bool.or_eq_true, beq_iff_eq,
      bne_iff_ne, ne_eq] at h
    omega
  · intro h
    simp only [isLeapYear, Bool.and_eq_true, Bool.or_eq_true, beq_iff_eq,
      bne_iff_ne, ne_eq]
    omega

lemma from_ymd_opt_feb29 (y : Int) :
    (from_ymd_opt y 2 29).isSome = isLeapYear y := by
  cases hL : isLeapYear y <;> simp [from_ymd_opt, daysInMonth, hL]

/-- Bounds on the ordinal for any valid date. -/
lemma dayOfYear_bounds (y : Int) (m d : Nat)
    (h1 : 1 ≤ m) (h2 : m ≤ 12) (h3 : 1 ≤ d) (h4 : d ≤ daysInMonth y m) :
    1 ≤ dayOfYear y m d ∧
      dayOfYear y m d ≤ (if isLeapYear y then 366 else 365) := by
  unfold dayOfYear
  interval_cases m <;>
    cases hL : isLeapYear y <;>
      simp only [daysBeforeMonth, daysInMonth, hL, if_true, if_false,
        Bool.false_eq_true, ite_true, ite_false] at h4 ⊢ <;>
    omega

lemma rat_div_mul_nonneg (a b : Nat) : 0 ≤ ((a : ℚ) / (b : ℚ)) * 100 := by
  positivity

lemma rat_div_mul_lt (a b : Nat) (hb : 0 < b) (h : a < b) :
    ((a : ℚ) / (b : ℚ)) * 100 < 100 := by
  have hb' : (0 : ℚ) < (b : ℚ) := by exact_mod_cast hb
  have h1 : (a : ℚ) / (b : ℚ) < 1 := by
    rw [div_lt_one hb']
    exact_mod_cast h
  nlinarith

lemma rat_div_mul_le (a b : Nat) (hb : 0 < b) (h : a ≤ b) :
    ((a : ℚ) / (b : ℚ)) * 100 ≤ 100 := by
  have hb' : (0 : ℚ) < (b : ℚ) := by exact_mod_cast hb
  have h1 : (a : ℚ) / (b : ℚ) ≤ 1 := by
    rw [div_le_one hb']
    exact_mod_cast h
  nlinarith

lemma rat_div_mul_pos (a b : Nat) (ha : 0 < a) (hb : 0 < b) :
    0 < ((a : ℚ) / (b : ℚ)) * 100 := by
  have ha' : (0 : ℚ) < (a : ℚ) := by exact_mod_cast ha
  have hb' : (0 : ℚ) < (b : ℚ) := by exact_mod_cast hb
  positivity

/- ==================================================================
   Claim theorems
   ================================================================== -/

/-- C3: the leap-year flag of the time-statistics calculator (Feb-29
constructibility) agrees with the proleptic Gregorian rule for every
year, and total_days_in_year is 366 exactly under that rule. -/
theorem C3_leap_year_rule (now : LocalDateTime) :
    ((compute_time_statistics now).is_leap = true ↔
      ((now.year % 4 = 0 ∧ now.year % 100 ≠ 0) ∨ now.year % 400 = 0)) ∧
    (compute_time_statistics now).total_days_in_year =
      (if (now.year % 4 = 0 ∧ now.year % 100 ≠ 0) ∨ now.year % 400 = 0
       then 366 else 365) := by
  have hflag : (compute_time_statistics now).is_leap =
      isLeapYear now.year := by
    simp [compute_time_statistics, from_ymd_opt_feb29]
  constructor
  · rw [hflag]
    exact isLeapYear_iff now.year
  · have : (compute_time_statistics now).total_days_in_year =
        (if isLeapYear now.year then 366 else 365) := by
      simp [compute_time_statistics, from_ymd_opt_feb29]
    rw [this]
    by_cases h : (now.year % 4 = 0 ∧ now.year % 100 ≠ 0) ∨ now.year % 400 = 0
    · rw [if_pos ((isLeapYear_iff now.year).mpr h), if_pos h]
    · rw [if_neg (fun hb => h ((isLeapYear_iff now.year).mp hb)), if_neg h]

/-- C3 (witness): the characterisation instantiated at a 2024 and a
1900 instant — leap and non-leap under the Gregorian rule. -/
theorem C3_leap_year_rule_witness :
    (compute_time_statistics
      { year := 2024, month := 1, day := 1, hour := 0, minute := 0,
        second := 0, isoWeek := 1, timestamp := 1704063600 }).is_leap = true ∧
    (compute_time_statistics
      { year := 1900, month := 1, day := 1, hour := 0, minute := 0,
        second := 0, isoWeek := 1, timestamp := 0 }).total_days_in_year
      = 365 := by
  refine ⟨(C3_leap_year_rule
      { year := 2024, month := 1, day := 1, hour := 0, minute := 0,
        second := 0, isoWeek := 1, timestamp := 1704063600 }).1.mpr
      (by decide), ?_⟩
  have h := (C3_leap_year_rule
    { year := 1900, month := 1, day := 1, hour := 0, minute := 0,
      second := 0, isoWeek := 1, timestamp := 0 }).2
  rw [h]
  decide

/-- C5: date validation uses the fixed leap reference year 2024, so
Feb-29 is always accepted, Apr-31 always rejected with the two-digit
formatted message, and in general a pair passes exactly when it is a
date of the reference leap calendar. -/
theorem C5_date_validation :
    validateDate 2 29 = Except.ok () ∧
    validateDate 4 31 =
      Except.error "'04-31' is not a valid calendar date" ∧
    isLeapYear 2024 = true ∧
    daysInMonth 2024 2 = 29 ∧
    (∀ m d : Nat, (validateDate m d).isOk = true ↔
      (1 ≤ m ∧ m ≤ 12 ∧ 1 ≤ d ∧ d ≤ daysInMonth 2024 m)) := by
  refine ⟨rfl, rfl, by decide, by decide, ?_⟩
  intro m d
  by_cases h : 1 ≤ m ∧ m ≤ 12 ∧ 1 ≤ d ∧ d ≤ daysInMonth 2024 m
  · simp [validateDate, from_ymd_opt, h, Except.isOk, Except.toBool]
  · simp [validateDate, from_ymd_opt, h, Except.isOk, Except.toBool]

/-- C5 (witness): the acceptance characterisation instantiated at
Feb-29 and Apr-31. -/
theorem C5_date_validation_witness :
    (validateDate 2 29).isOk = true ∧ (validateDate 4 31).isOk = false := by
  refine ⟨(C5_date_validation.2.2.2.2 2 29).mpr (by decide), ?_⟩
  cases hk : (validateDate 4 31).isOk with
  | false => rfl
  | true =>
      have h := (C5_date_validation.2.2.2.2 4 31).mp hk
      simp [daysInMonth, isLeapYear] at h

/-- C6: month and day overrides are resolved independently — each
present override is used, each absent one falls back to today's
corresponding field on its own, and with both absent today's pair is
used. -/
theorem C6_date_resolution :
    (∀ (am ad : Option Nat) (tm td : Nat),
        resolveDate am ad tm td = (am.getD tm, ad.getD td)) ∧
    (∀ (m : Nat) (ad : Option Nat) (tm td : Nat),
        (resolveDate (some m) ad tm td).1 = m) ∧
    (∀ (ad : Option Nat) (tm td : Nat),
        (resolveDate none ad tm td).1 = tm) ∧
    (∀ (d : Nat) (am : Option Nat) (tm td : Nat),
        (resolveDate am (some d) tm td).2 = d) ∧
    (∀ (am : Option Nat) (tm td : Nat),
        (resolveDate am none tm td).2 = td) ∧
    (∀ (am ad adx : Option Nat) (tm td : Nat),
        (resolveDate am ad tm td).1 = (resolveDate am adx tm td).1) ∧
    (∀ (am amx ad : Option Nat) (tm td : Nat),
        (resolveDate am ad tm td).2 = (resolveDate amx ad tm td).2) ∧
    (∀ tm td : Nat, resolveDate none none tm td = (tm, td)) := by
  refine ⟨fun am ad tm td => rfl, fun m ad tm td => rfl, fun ad tm td => rfl,
    fun d am tm td => rfl, fun am tm td => rfl, fun am ad adx tm td => rfl,
    fun am amx ad tm td => rfl, fun tm td => rfl⟩

/-- C10: the detected terminal width is clamped to at least 50 before
the fixed margins 5 and 15 are subtracted, so neither usize
subtraction underflows (each subtraction round-trips by adding the
margin back) and both wrap widths stay positive. -/
theorem C10_width_clamping (w : Nat) :
    50 ≤ clampedWidth w ∧
    holidayWrapWidth w + 5 = clampedWidth w ∧
    eventWrapWidth w + 15 = clampedWidth w ∧
    45 ≤ holidayWrapWidth w ∧
    35 ≤ eventWrapWidth w := by
  unfold clampedWidth holidayWrapWidth eventWrapWidth clampedWidth
  omega

/-- C1 (counterexample): on December 31 of the non-leap year 2025 the
year progress equals exactly 100, so it is not strictly below 100 as
the claim states for every calendar date. -/
theorem C1_year_progress_counterexample :
    (compute_time_statistics
      { year := 2025, month := 12, day := 31, hour := 12, minute := 0,
        second := 0, isoWeek := 1, timestamp := 1767175200 }).year_progress
      = 100 ∧
    ¬ ((compute_time_statistics
      { year := 2025, month := 12, day := 31, hour := 12, minute := 0,
        second := 0, isoWeek := 1, timestamp := 1767175200 }).year_progress
      < 100) := by
  have h : (compute_time_statistics
      { year := 2025, month := 12, day := 31, hour := 12, minute := 0,
        second := 0, isoWeek := 1, timestamp := 1767175200 }).year_progress
      = 100 := by
    norm_num [compute_time_statistics, dayOfYear, daysBeforeMonth,
      isLeapYear, from_ymd_opt, daysInMonth]
  exact ⟨h, by rw [h]; exact lt_irrefl 100⟩

/-- C1 (amended): for every valid instant, day_progress lies in
[0,100), equals 0 at local midnight and stays below 100 at 23:59:59;
year_progress lies in (0,100] — it reaches exactly 100 on December 31
(leap or not) rather than staying below 100. -/
theorem C1_progress_bounds (now : LocalDateTime) (h : now.Valid) :
    0 ≤ (compute_time_statistics now).day_progress ∧
    (compute_time_statistics now).day_progress < 100 ∧
    0 < (compute_time_statistics now).year_progress ∧
    (compute_time_statistics now).year_progress ≤ 100 ∧
    (now.hour = 0 → now.minute = 0 → now.second = 0 →
      (compute_time_statistics now).day_progress = 0) ∧
    (now.month = 12 → now.day = 31 →
      (compute_time_statistics now).year_progress = 100) := by
  obtain ⟨hm1, hm2, hd1, hd2, hh, hmin, hs⟩ := h
  have hdp : (compute_time_statistics now).day_progress =
      ((now.hour * 3600 + now.minute * 60 + now.second : Nat) : ℚ)
        / (86400 : Nat) * 100 := by
    simp [compute_time_statistics]
  have hyp : (compute_time_statistics now).year_progress =
      ((dayOfYear now.year now.month now.day : Nat) : ℚ)
        / ((if isLeapYear now.year then (366 : Nat) else 365) : Nat) * 100 := by
    cases hL : isLeapYear now.year <;>
      simp [compute_time_statistics, from_ymd_opt_feb29, hL]
  have hsec : now.hour * 3600 + now.minute * 60 + now.second < 86400 := by
    omega
  have hord := dayOfYear_bounds now.year now.month now.day hm1 hm2 hd1 hd2
  have htot : 0 < (if isLeapYear now.year then (366 : Nat) else 365) := by
    cases isLeapYear now.year <;> simp
  refine ⟨?_, ?_, ?_, ?_, ?_, ?_⟩
  · rw [hdp]; exact rat_div_mul_nonneg _ _
  · rw [hdp]; exact rat_div_mul_lt _ _ (by norm_num) hsec
  · rw [hyp]; exact rat_div_mul_pos _ _ hord.1 htot
  · rw [hyp]; exact rat_div_mul_le _ _ htot (by simpa using hord.2)
  · intro h0 h1 h2
    rw [hdp, h0, h1, h2]
    norm_num
  · intro hM hD
    rw [hyp, hM, hD]
    have : dayOfYear now.year 12 31 =
        (if isLeapYear now.year then (366 : Nat) else 365) := by
      unfold dayOfYear daysBeforeMonth
      cases isLeapYear now.year <;> simp
    rw [this]
    have hne : (((if isLeapYear now.year then (366 : Nat) else 365) : Nat) : ℚ)
        ≠ 0 := by
      cases isLeapYear now.year <;> norm_num
    field_simp

/-- C1 (witness): a concrete valid instant, 23:59:59 on December 31
of the leap year 2024, satisfying the amended bounds. -/
theorem C1_progress_bounds_witness :
    0 ≤ (compute_time_statistics
      { year := 2024, month := 12, day := 31, hour := 23, minute := 59,
        second := 59, isoWeek := 1, timestamp := 1735685999 }).day_progress ∧
    (compute_time_statistics
      { year := 2024, month := 12, day := 31, hour := 23, minute := 59,
        second := 59, isoWeek := 1, timestamp := 1735685999 }).day_progress
      < 100 := by
  have h := C1_progress_bounds
    { year := 2024, month := 12, day := 31, hour := 23, minute := 59,
      second := 59, isoWeek := 1, timestamp := 1735685999 }
    (by constructor <;> simp [daysInMonth, isLeapYear])
  exact ⟨h.1, h.2.1⟩

/-- An ASCII character occupies one UTF-8 byte. -/
lemma utf8Size_eq_one_of_ascii {c : Char} (h : c.toNat ≤ 127) :
    c.utf8Size = 1 := by
  have hv : c.val ≤ UInt32.ofNatCore 0x7F (by decide) := by
    rw [UInt32.le_def]
    change c.val.toBitVec ≤ _
    rw [BitVec.le_def]
    simpa [Char.toNat, UInt32.toNat, UInt32.ofNatCore] using h
  unfold Char.utf8Size
  rw [if_pos hv]

lemma toNat_le_of_alpha {c : Char} (h : isAsciiAlphabetic c = true) :
    c.toNat ≤ 127 := by
  simp only [isAsciiAlphabetic, Bool.or_eq_true, Bool.and_eq_true,
    decide_eq_true_eq] at h
  omega

/-- Over an all-ASCII-alphabetic string, the Rust byte length agrees
with the character count. -/
lemma utf8Size_sum_of_alpha (cs : List Char)
    (h : cs.all isAsciiAlphabetic = true) :
    (cs.map Char.utf8Size).sum = cs.length := by
  induction cs with
  | nil => rfl
  | cons c cs ih =>
      simp only [List.all_cons, Bool.and_eq_true] at h
      simp only [List.map_cons, List.sum_cons, List.length_cons,
        utf8Size_eq_one_of_ascii (toNat_le_of_alpha h.1), ih h.2]
      omega

/-- Over an all-ASCII-alphabetic string, the Rust byte length agrees
with the character count. -/
lemma utf8Len_eq_length_of_alpha {s : String}
    (h : s.data.all isAsciiAlphabetic = true) :
    utf8Len s = s.data.length :=
  utf8Size_sum_of_alpha s.data h

/-- C4: the language-code validator accepts exactly the two-character
all-ASCII-alphabetic strings, lowercase-folds on success, quotes the
offending input in its error message, and behaves as documented on
the four reference inputs. -/
theorem C4_parse_lang_code :
    (∀ s : String, (∃ t, parse_lang_code s = Except.ok t) ↔
        (s.data.length = 2 ∧ s.data.all isAsciiAlphabetic = true)) ∧
    (∀ s : String, s.data.length = 2 → s.data.all isAsciiAlphabetic = true →
        parse_lang_code s = Except.ok (strToAsciiLower s)) ∧
    (∀ s : String, ¬(s.data.length = 2 ∧ s.data.all isAsciiAlphabetic = true) →
        parse_lang_code s = Except.error
          ("'" ++ s ++ "' is not a valid ISO-639-1 language code (two ASCII letters)")) ∧
    parse_lang_code "de" = Except.ok "de" ∧
    parse_lang_code "EN" = Except.ok "en" ∧
    parse_lang_code "eng" = Except.error
      ("'eng' is not a valid ISO-639-1 language code (two ASCII letters)") ∧
    parse_lang_code "1a" = Except.error
      ("'1a' is not a valid ISO-639-1 language code (two ASCII letters)") := by
  have hcond : ∀ s : String,
      (utf8Len s = 2 ∧ s.data.all isAsciiAlphabetic = true) ↔
      (s.data.length = 2 ∧ s.data.all isAsciiAlphabetic = true) := by
    intro s
    constructor
    · rintro ⟨h1, h2⟩
      exact ⟨by rw [← utf8Len_eq_length_of_alpha h2]; exact h1, h2⟩
    · rintro ⟨h1, h2⟩
      exact ⟨by rw [utf8Len_eq_length_of_alpha h2]; exact h1, h2⟩
  refine ⟨?_, ?_, ?_, rfl, rfl, rfl, rfl⟩
  · intro s
    constructor
    · rintro ⟨t, ht⟩
      by_cases h : utf8Len s = 2 ∧ s.data.all isAsciiAlphabetic = true
      · exact (hcond s).mp h
      · simp only [parse_lang_code, if_neg h] at ht
        exact Except.noConfusion ht
    · intro h
      exact ⟨strToAsciiLower s,
        by simp only [parse_lang_code, if_pos ((hcond s).mpr h)]⟩
  · intro s h1 h2
    simp only [parse_lang_code, if_pos ((hcond s).mpr ⟨h1, h2⟩)]
  · intro s h
    simp only [parse_lang_code, if_neg (fun hc => h ((hcond s).mp hc))]

/-- C4 (witness): the acceptance characterisation instantiated at
"EN", discharging its hypotheses concretely. -/
theorem C4_parse_lang_code_witness :
    parse_lang_code "EN" = Except.ok (strToAsciiLower "EN") ∧
    parse_lang_code "eng" = Except.error
      ("'eng' is not a valid ISO-639-1 language code (two ASCII letters)") := by
  exact ⟨C4_parse_lang_code.2.1 "EN" (by decide) (by decide),
    C4_parse_lang_code.2.2.1 "eng" (by decide)⟩

/-- C7: for every non-empty selected sequence of a non-holiday
category, the table holds exactly one row per entry and row `i` is
built from the entry at mirrored position `n - 1 - i` — the exact
reverse of the API's native order; instantiated on the two-event
example it renders B (2005) before A (1990). -/
theorem C7_render_reversed (wrap : String → String) (t : EventType)
    (r : OnThisDayResponse) (ht : t ≠ EventType.holidays)
    (hne : selectedEvents t r ≠ []) :
    (renderTable wrap t r).length = (selectedEvents t r).length ∧
    (∀ i, i < (selectedEvents t r).length →
      (renderTable wrap t r)[i]? =
        ((selectedEvents t r)[(selectedEvents t r).length - 1 - i]?).map
          (fun ev => [toString ev.year, wrap ev.text])) := by
  have hrt : renderTable wrap t r =
      ((selectedEvents t r).reverse.map
        (fun ev => (toString ev.year, wrap ev.text))).map
          (fun p => [p.1, p.2]) := by
    cases t with
    | holidays => exact absurd rfl ht
    | events =>
        simp [renderTable, renderEventRows, List.isEmpty_iff, hne]
    | births =>
        simp [renderTable, renderEventRows, List.isEmpty_iff, hne]
    | deaths =>
        simp [renderTable, renderEventRows, List.isEmpty_iff, hne]
  constructor
  · rw [hrt]
    simp
  · intro i hi
    rw [hrt]
    rw [List.getElem?_map, List.getElem?_map,
      List.getElem?_reverse (by simpa using hi)]
    cases hx : (selectedEvents t r)[(selectedEvents t r).length - 1 - i]? with
    | none => rfl
    | some ev => rfl

/-- C7 (witness): the mocked two-event response — events
[(1990, A), (2005, B)] — renders row 0 as B (2005) and row 1 as
A (1990), i.e. descending by year. -/
theorem C7_render_reversed_witness :
    (renderTable id EventType.events
        { events := [{ year := 1990, text := "A" }, { year := 2005, text := "B" }],
          births := [], deaths := [], holidays := [] })[0]? =
      some ["2005", "B"] ∧
    (renderTable id EventType.events
        { events := [{ year := 1990, text := "A" }, { year := 2005, text := "B" }],
          births := [], deaths := [], holidays := [] })[1]? =
      some ["1990", "A"] := by
  have h := C7_render_reversed id EventType.events
    { events := [{ year := 1990, text := "A" }, { year := 2005, text := "B" }],
      births := [], deaths := [], holidays := [] }
    (by decide) (by simp [selectedEvents])
  have h0 := h.2 0 (by simp [selectedEvents])
  have h1 := h.2 1 (by simp [selectedEvents])
  simp only [selectedEvents] at h0 h1
  refine ⟨?_, ?_⟩
  · rw [h0]; rfl
  · rw [h1]; rfl

/-- A category field decodes to some list whenever it is absent
(serde default) or present and well formed; absence yields `[]`. -/
lemma decodeField_ok {α : Type} (dec : Json → Except String α)
    (fields : List (String × Json)) (key : String)
    (h : ∀ v, jsonLookup fields key = some v →
      (decodeList dec v).isOk = true) :
    ∃ xs, decodeField dec fields key = Except.ok xs ∧
      (jsonLookup fields key = none → xs = []) := by
  unfold decodeField
  cases hk : jsonLookup fields key with
  | none => exact ⟨[], rfl, fun _ => rfl⟩
  | some v =>
      have hv := h v hk
      cases hd : decodeList dec v with
      | ok xs =>
          exact ⟨xs, by simp only [hd], fun hn => Option.noConfusion hn⟩
      | error e =>
          rw [hd] at hv
          simp [Except.isOk, Except.toBool] at hv

/-- C8: decoding an object whose present category fields are well
formed always succeeds, and every absent category field — events,
births, deaths or holidays — becomes the empty sequence; absence is
never a decode error. -/
theorem C8_missing_fields_default (fields : List (String × Json))
    (hev : ∀ v, jsonLookup fields "events" = some v →
      (decodeList decodeEvent v).isOk = true)
    (hbi : ∀ v, jsonLookup fields "births" = some v →
      (decodeList decodeEvent v).isOk = true)
    (hde : ∀ v, jsonLookup fields "deaths" = some v →
      (decodeList decodeEvent v).isOk = true)
    (hho : ∀ v, jsonLookup fields "holidays" = some v →
      (decodeList decodeHoliday v).isOk = true) :
    ∃ resp, decodeResponse (Json.obj fields) = Except.ok resp ∧
      (jsonLookup fields "events" = none → resp.events = []) ∧
      (jsonLookup fields "births" = none → resp.births = []) ∧
      (jsonLookup fields "deaths" = none → resp.deaths = []) ∧
      (jsonLookup fields "holidays" = none → resp.holidays = []) := by
  obtain ⟨evs, he, he0⟩ := decodeField_ok decodeEvent fields "events" hev
  obtain ⟨bs, hb, hb0⟩ := decodeField_ok decodeEvent fields "births" hbi
  obtain ⟨ds, hd, hd0⟩ := decodeField_ok decodeEvent fields "deaths" hde
  obtain ⟨hs, hh, hh0⟩ := decodeField_ok decodeHoliday fields "holidays" hho
  refine ⟨{ events := evs, births := bs, deaths := ds, holidays := hs },
    ?_, he0, hb0, hd0, hh0⟩
  simp only [decodeResponse, he, hb, hd, hh]

/-- C8 (witness): a body carrying only a well-formed events array —
births, deaths and holidays absent — decodes successfully with those
three categories empty. -/
theorem C8_missing_fields_default_witness :
    ∃ resp,
      decodeResponse (Json.obj
        [("events", Json.arr [Json.obj
          [("year", Json.num 1990), ("text", Json.str "A")]])]) =
        Except.ok resp ∧
      resp.births = [] ∧ resp.deaths = [] ∧ resp.holidays = [] := by
  obtain ⟨resp, hok, -, hb, hd, hh⟩ :=
    C8_missing_fields_default
      [("events", Json.arr [Json.obj
        [("year", Json.num 1990), ("text", Json.str "A")]])]
      (fun v hv => by
        have h2 : some (Json.arr [Json.obj
            [("year", Json.num 1990), ("text", Json.str "A")]]) = some v := hv
        injection h2 with h3
        rw [← h3]
        decide)
      (fun v hv => by simp [jsonLookup] at hv)
      (fun v hv => by simp [jsonLookup] at hv)
      (fun v hv => by simp [jsonLookup] at hv)
  exact ⟨resp, hok, hb (by simp [jsonLookup]), hd (by simp [jsonLookup]),
    hh (by simp [jsonLookup])⟩

lemma lookupCache_insertCache (st : CacheState) (k : CacheKey) (t : Nat)
    (r : FetchOutcome) :
    lookupCache (insertCache st k t r) k = some (t, r) := by
  simp [insertCache, lookupCache]

/-- C2: a live (non-expired, TTL 86400 s) cache entry for the exact
key tuple is returned with zero network calls — whatever outcome it
stores, error included; starting from a state with no entry for the
key, two fetches within the TTL window make exactly one network call
and the second returns the first outcome, while a second fetch at or
after expiry makes a second network call and returns the fresh
outcome. -/
theorem C2_cache_ttl :
    (∀ (st : CacheState) (k : CacheKey) (tIns now : Nat)
        (r net : FetchOutcome),
      lookupCache st k = some (tIns, r) → now < tIns + cacheTTL →
      fetch_wikipedia_data st now k net = (r, st, 0)) ∧
    (∀ (st : CacheState) (k : CacheKey) (t1 t2 : Nat)
        (r1 r2 : FetchOutcome),
      lookupCache st k = none → t2 < t1 + 86400 →
      (fetch_wikipedia_data st t1 k r1).2.2 +
        (fetch_wikipedia_data
          (fetch_wikipedia_data st t1 k r1).2.1 t2 k r2).2.2 = 1 ∧
      (fetch_wikipedia_data
        (fetch_wikipedia_data st t1 k r1).2.1 t2 k r2).1 = r1) ∧
    (∀ (st : CacheState) (k : CacheKey) (t1 t2 : Nat)
        (r1 r2 : FetchOutcome),
      lookupCache st k = none → t1 + 86400 ≤ t2 →
      (fetch_wikipedia_data st t1 k r1).2.2 +
        (fetch_wikipedia_data
          (fetch_wikipedia_data st t1 k r1).2.1 t2 k r2).2.2 = 2 ∧
      (fetch_wikipedia_data
        (fetch_wikipedia_data st t1 k r1).2.1 t2 k r2).1 = r2) := by
  refine ⟨?_, ?_, ?_⟩
  · intro st k tIns now r net hlk hlive
    simp only [fetch_wikipedia_data, hlk, if_pos hlive]
  · intro st k t1 t2 r1 r2 hnone hwin
    have h1 : fetch_wikipedia_data st t1 k r1 =
        (r1, insertCache st k t1 r1, 1) := by
      simp only [fetch_wikipedia_data, hnone]
    rw [h1]
    have h2 : fetch_wikipedia_data (insertCache st k t1 r1) t2 k r2 =
        (r1, insertCache st k t1 r1, 0) := by
      simp only [fetch_wikipedia_data, lookupCache_insertCache]
      rw [if_pos (by unfold cacheTTL; omega)]
    rw [h2]
    exact ⟨rfl, rfl⟩
  · intro st k t1 t2 r1 r2 hnone hexp
    have h1 : fetch_wikipedia_data st t1 k r1 =
        (r1, insertCache st k t1 r1, 1) := by
      simp only [fetch_wikipedia_data, hnone]
    rw [h1]
    have h2 : fetch_wikipedia_data (insertCache st k t1 r1) t2 k r2 =
        (r2, insertCache (insertCache st k t1 r1) k t2 r2, 1) := by
      simp only [fetch_wikipedia_data, lookupCache_insertCache]
      rw [if_neg (by unfold cacheTTL; omega)]
    rw [h2]
    exact ⟨rfl, rfl⟩

/-- C2 (witness): from the empty cache, a failing fetch for
("en", "events", 2, 29) at t = 0 followed by a repeat at t = 86399
makes one network call in total and replays the cached error, while a
repeat at t = 86400 makes the second call. -/
theorem C2_cache_ttl_witness :
    ((fetch_wikipedia_data emptyCache 0 ("en", "events", 2, 29)
        (Except.error "network down")).2.2 +
      (fetch_wikipedia_data
        (fetch_wikipedia_data emptyCache 0 ("en", "events", 2, 29)
          (Except.error "network down")).2.1
        86399 ("en", "events", 2, 29) (Except.ok
          { events := [], births := [], deaths := [], holidays := [] })).2.2
        = 1 ∧
      (fetch_wikipedia_data
        (fetch_wikipedia_data emptyCache 0 ("en", "events", 2, 29)
          (Except.error "network down")).2.1
        86399 ("en", "events", 2, 29) (Except.ok
          { events := [], births := [], deaths := [], holidays := [] })).1
        = Except.error "network down") ∧
    ((fetch_wikipedia_data emptyCache 0 ("en", "events", 2, 29)
        (Except.error "network down")).2.2 +
      (fetch_wikipedia_data
        (fetch_wikipedia_data emptyCache 0 ("en", "events", 2, 29)
          (Except.error "network down")).2.1
        86400 ("en", "events", 2, 29) (Except.ok
          { events := [], births := [], deaths := [], holidays := [] })).2.2
        = 2) := by
  refine ⟨C2_cache_ttl.2.1 emptyCache ("en", "events", 2, 29) 0 86399
    (Except.error "network down")
    (Except.ok { events := [], births := [], deaths := [], holidays := [] })
    rfl (by omega),
    (C2_cache_ttl.2.2 emptyCache ("en", "events", 2, 29) 0 86400
      (Except.error "network down")
      (Except.ok { events := [], births := [], deaths := [], holidays := [] })
      rfl (by omega)).1⟩

/-- C9: whenever validation fails — the language code is rejected or
the resolved month/day pair is not a reference-calendar date — the
history pipeline ends in that error with zero network calls and an
untouched cache; the fetch step is never reached. -/
theorem C9_no_network_on_validation_failure
    (st : CacheState) (rawLang : String) (t : EventType)
    (am ad : Option Nat) (tm td : Nat) (now : Nat) (net : FetchOutcome)
    (wrap : String → String)
    (h : (∃ e, parse_lang_code rawLang = Except.error e) ∨
      (∃ e, validateDate (resolveDate am ad tm td).1
        (resolveDate am ad tm td).2 = Except.error e)) :
    (show_on_this_day st rawLang t am ad tm td now net wrap).2.2 = 0 ∧
    (∃ e, (show_on_this_day st rawLang t am ad tm td now net wrap).1 =
      Except.error e) ∧
    (show_on_this_day st rawLang t am ad tm td now net wrap).2.1 = st := by
  cases hp : parse_lang_code rawLang with
  | error e =>
      simp only [show_on_this_day, hp]
      exact ⟨by trivial, ⟨e, by trivial⟩, by trivial⟩
  | ok lang =>
      rcases h with ⟨e, he⟩ | ⟨e, he⟩
      · rw [hp] at he
        exact Except.noConfusion he
      · simp only [show_on_this_day, hp, he]
        exact ⟨by trivial, ⟨e, by trivial⟩, by trivial⟩

/-- C9 (witness): the pipeline with the rejected language code "eng",
and the pipeline with the invalid override pair month 4 / day 31,
each finish with zero network calls. -/
theorem C9_no_network_witness :
    (show_on_this_day emptyCache "eng" EventType.events none none 6 15 0
      (Except.ok { events := [], births := [], deaths := [], holidays := [] })
      id).2.2 = 0 ∧
    (show_on_this_day emptyCache "en" EventType.events (some 4) (some 31) 6 15 0
      (Except.ok { events := [], births := [], deaths := [], holidays := [] })
      id).2.2 = 0 := by
  refine ⟨(C9_no_network_on_validation_failure emptyCache "eng"
      EventType.events none none 6 15 0
      (Except.ok { events := [], births := [], deaths := [], holidays := [] })
      id (Or.inl ⟨_, rfl⟩)).1,
    (C9_no_network_on_validation_failure emptyCache "en"
      EventType.events (some 4) (some 31) 6 15 0
      (Except.ok { events := [], births := [], deaths := [], holidays := [] })
      id (Or.inr ⟨_, rfl⟩)).1⟩

end TimeCli
